import Mathlib

/-!
Verification of the navcat client-side script (src/script.js).

The script wires UI behaviors to DOM events: a mobile navigation menu
(MobileNavigation), a header style toggle on scroll (HeaderScrollEffects),
intersection-based fade-in animations (ScrollAnimations) and a button ripple
effect (InteractiveElements).  We embed the state each handler reads and
writes and the handler bodies as pure state transformers, and prove the
spec claims about them.
-/

namespace Navcat

/-- CONFIG.scroll.threshold (src/script.js line 34). -/
def scrollThreshold : Nat := 100

/-- CONFIG.breakpoints.mobile (src/script.js line 25). -/
def mobileBreakpoint : Nat := 768

/-- The DOM state read and written by MobileNavigation (lines 115-246):
the `isOpen` field of the instance, whether the menu element's class list
holds the class named active, the toggle button's aria-expanded and
aria-label attribute values, and document.body.style.overflow.
Focus moves and the transient screen-reader announcement div (appended and
removed after 1000 ms) touch no retained field and are not part of this
state. -/
structure NavState where
  isOpen : Bool
  menuActive : Bool
  ariaExpanded : String
  ariaLabel : String
  bodyOverflow : String
deriving Repr, DecidableEq

/-- Modelled from the spec: the page's HTML is not under src/, so the
initial attribute and class values come from the spec's data model ("the
boolean mirrors the presence/absence of a CSS class", menu initially
closed); `isOpen := false` is the constructor initialization at line 120. -/
def NavState.initial : NavState :=
  { isOpen := false
    menuActive := false
    ariaExpanded := "false"
    ariaLabel := "Open navigation menu"
    bodyOverflow := "" }

/-- MobileNavigation.openMenu (lines 202-219). -/
def openMenu (s : NavState) : NavState :=
  { s with
    isOpen := true
    menuActive := true
    ariaExpanded := "true"
    ariaLabel := "Close navigation menu"
    bodyOverflow := "hidden" }

/-- MobileNavigation.closeMenu (lines 221-232). -/
def closeMenu (s : NavState) : NavState :=
  { s with
    isOpen := false
    menuActive := false
    ariaExpanded := "false"
    ariaLabel := "Open navigation menu"
    bodyOverflow := "" }

/-- MobileNavigation.toggleMenu (lines 194-200). -/
def toggleMenu (s : NavState) : NavState :=
  if s.isOpen then closeMenu s else openMenu s

/-- The toggle button's click handler (lines 134-137): preventDefault, then
toggleMenu. -/
def clickToggle (s : NavState) : NavState :=
  toggleMenu s

/-- The nav link click handler (lines 141-145): closeMenu only when open. -/
def linkClickHandler (s : NavState) : NavState :=
  if s.isOpen then closeMenu s else s

/-- The document click handler (lines 149-153): closeMenu when the menu is
open and the event target lies neither in the menu nor in the toggle. -/
def outsideClickHandler (s : NavState) (targetInMenu targetInToggle : Bool) : NavState :=
  if s.isOpen && !targetInMenu && !targetInToggle then closeMenu s else s

/-- The document keydown handler (lines 156-161): closeMenu on Escape while
open (the toggle.focus() call moves focus only and touches no retained
field). -/
def keydownHandler (s : NavState) (key : String) : NavState :=
  if key = "Escape" && s.isOpen then closeMenu s else s

/-- The debounced window resize handler body (lines 164-168): closeMenu when
the viewport is wider than the mobile breakpoint and the menu is open. -/
def resizeHandler (s : NavState) (innerWidth : Nat) : NavState :=
  if innerWidth > mobileBreakpoint && s.isOpen then closeMenu s else s

/-- The state of HeaderScrollEffects (lines 308-344): the `isScrolled` and
`lastScrollTop` instance fields and whether the header element's class list
holds the class named scrolled. -/
structure HeaderState where
  isScrolled : Bool
  headerScrolled : Bool
  lastScrollTop : Nat
deriving Repr, DecidableEq

/-- Constructor initialization (lines 311-312): lastScrollTop = 0,
isScrolled = false; the header starts without the scrolled class. -/
def HeaderState.initial : HeaderState :=
  { isScrolled := false, headerScrolled := false, lastScrollTop := 0 }

/-- HeaderScrollEffects.updateHeader (lines 330-343), with the current
scroll position passed explicitly (getScrollTop reads it from the DOM). -/
def updateHeader (h : HeaderState) (scrollTop : Nat) : HeaderState :=
  if scrollTop > scrollThreshold && !h.isScrolled then
    { h with headerScrolled := true, isScrolled := true, lastScrollTop := scrollTop }
  else if scrollTop ≤ scrollThreshold && h.isScrolled then
    { h with headerScrolled := false, isScrolled := false, lastScrollTop := scrollTop }
  else
    { h with lastScrollTop := scrollTop }

/-- The combined menu and header state of C1. -/
structure PageState where
  nav : NavState
  header : HeaderState
deriving Repr, DecidableEq

/-- Initial page state at the end of DOMContentLoaded initialization. -/
def PageState.initial : PageState :=
  { nav := NavState.initial, header := HeaderState.initial }

/-- The operations of C1: the three MobileNavigation methods and
updateHeader at a given scroll position. -/
inductive Op where
  | navOpen
  | navClose
  | navToggle
  | headerUpdate (scrollTop : Nat)
deriving Repr, DecidableEq

/-- Apply one operation to the combined state. -/
def applyOp (st : PageState) (op : Op) : PageState :=
  match op with
  | .navOpen => { st with nav := openMenu st.nav }
  | .navClose => { st with nav := closeMenu st.nav }
  | .navToggle => { st with nav := toggleMenu st.nav }
  | .headerUpdate s => { st with header := updateHeader st.header s }

/-- Run a sequence of operations from a given state. -/
def runFrom (st : PageState) (ops : List Op) : PageState :=
  ops.foldl applyOp st

/-- Run a sequence of operations from the initial state. -/
def run (ops : List Op) : PageState :=
  runFrom PageState.initial ops

/-- The mirror invariant: each boolean flag equals the presence of its CSS
class. -/
def mirrors (st : PageState) : Prop :=
  st.nav.isOpen = st.nav.menuActive ∧ st.header.isScrolled = st.header.headerScrolled

lemma updateHeader_sync (h : HeaderState) (s : Nat)
    (hs : h.isScrolled = h.headerScrolled) :
    (updateHeader h s).isScrolled = (updateHeader h s).headerScrolled := by
  unfold updateHeader
  split
  · rfl
  · split
    · rfl
    · exact hs

lemma mirrors_applyOp (st : PageState) (op : Op) (h : mirrors st) :
    mirrors (applyOp st op) := by
  cases op with
  | navOpen => exact ⟨rfl, h.2⟩
  | navClose => exact ⟨rfl, h.2⟩
  | navToggle =>
      refine ⟨?_, h.2⟩
      show (toggleMenu st.nav).isOpen = (toggleMenu st.nav).menuActive
      unfold toggleMenu
      split <;> rfl
  | headerUpdate s => exact ⟨h.1, updateHeader_sync st.header s h.2⟩

lemma mirrors_runFrom (ops : List Op) (st : PageState) (h : mirrors st) :
    mirrors (runFrom st ops) := by
  induction ops generalizing st with
  | nil => exact h
  | cons op ops ih =>
      have hstep : runFrom st (op :: ops) = runFrom (applyOp st op) ops := rfl
      rw [hstep]
      exact ih (applyOp st op) (mirrors_applyOp st op h)

/-- C1: for every sequence of openMenu/closeMenu/toggleMenu/updateHeader
operations from the initial state, MobileNavigation.isOpen equals the
presence of the active class on the menu, and HeaderScrollEffects.isScrolled
equals the presence of the scrolled class on the header. -/
theorem menu_header_flags_mirror_classes (ops : List Op) :
    (run ops).nav.isOpen = (run ops).nav.menuActive ∧
    (run ops).header.isScrolled = (run ops).header.headerScrolled :=
  mirrors_runFrom ops PageState.initial ⟨rfl, rfl⟩

lemma updateHeader_isScrolled (h : HeaderState) (s : Nat) :
    (updateHeader h s).isScrolled = decide (s > scrollThreshold) := by
  unfold updateHeader scrollThreshold
  cases hb : h.isScrolled <;> split_ifs <;> simp_all

lemma updateHeader_headerScrolled (h : HeaderState) (s : Nat)
    (hsync : h.headerScrolled = h.isScrolled) :
    (updateHeader h s).headerScrolled = decide (s > scrollThreshold) := by
  unfold updateHeader scrollThreshold
  cases hb : h.isScrolled <;> split_ifs <;> simp_all

/-- C2: after updateHeader at scroll position s, isScrolled equals
(s > CONFIG.scroll.threshold) regardless of the previous state, and — when
the scrolled class was in sync with isScrolled before the call — the header
has the scrolled class exactly when s exceeds the threshold. -/
theorem updateHeader_scrolled_iff_threshold :
    (∀ (h : HeaderState) (s : Nat),
       (updateHeader h s).isScrolled = decide (s > scrollThreshold)) ∧
    (∀ (h : HeaderState) (s : Nat), h.headerScrolled = h.isScrolled →
       (updateHeader h s).headerScrolled = decide (s > scrollThreshold)) :=
  ⟨updateHeader_isScrolled, fun h s hsync => updateHeader_headerScrolled h s hsync⟩

/-- Witness for C2 at a concrete state and scroll position. -/
theorem updateHeader_scrolled_iff_threshold_witness :
    (updateHeader HeaderState.initial 150).isScrolled = decide (150 > scrollThreshold) ∧
    (updateHeader HeaderState.initial 150).headerScrolled = decide (150 > scrollThreshold) ∧
    decide (150 > scrollThreshold) = true :=
  ⟨updateHeader_scrolled_iff_threshold.1 HeaderState.initial 150,
   updateHeader_scrolled_iff_threshold.2 HeaderState.initial 150 rfl,
   by decide⟩

/-- Counterexample to C3: from the initial (closed) state, the first click
on the toggle opens the menu but the second click closes it again, so it is
not true that after every click the menu has the active class and
aria-expanded is the string true. -/
theorem toggle_click_second_click_deactivates :
    (clickToggle (clickToggle NavState.initial)).menuActive = false ∧
    (clickToggle (clickToggle NavState.initial)).ariaExpanded = "false" := by
  decide

/-- C3 (amended): after a click on the toggle dispatched while the menu is
closed, the menu has the active class and aria-expanded is the string true;
a click dispatched while the menu is open removes both. -/
theorem toggle_click_from_closed_opens (s : NavState) (h : s.isOpen = false) :
    (clickToggle s).menuActive = true ∧ (clickToggle s).ariaExpanded = "true" := by
  simp [clickToggle, toggleMenu, openMenu, h]

/-- Witness for the amended C3 at the initial state. -/
theorem toggle_click_from_closed_opens_witness :
    NavState.initial.isOpen = false ∧
    (clickToggle NavState.initial).menuActive = true ∧
    (clickToggle NavState.initial).ariaExpanded = "true" :=
  ⟨rfl, toggle_click_from_closed_opens NavState.initial rfl⟩

/-- MobileNavigation.init (lines 125-130): early return when the toggle or
the menu element is missing.  The result is the pair of whether event
binding proceeded and the list of console messages emitted; the source
contains no console call on the early-return path. -/
def mobileNavInit (toggleFound menuFound : Bool) : Bool × List String :=
  if !toggleFound || !menuFound then (false, [])
  else (true, [])

/-- HeaderScrollEffects.init (lines 317-320): early return when the header
element is missing, again with no console call. -/
def headerInit (headerFound : Bool) : Bool × List String :=
  if !headerFound then (false, [])
  else (true, [])

/-- The DOMContentLoaded listener (lines 506-512): it constructs the five
feature objects directly, one after the other, with no try/catch around
them; the console messages of the whole initialization are the
concatenation of what the individual init methods emit. -/
def domReadyConsoleMessages (toggleFound menuFound headerFound : Bool) : List String :=
  (mobileNavInit toggleFound menuFound).2 ++ (headerInit headerFound).2

/-- Counterexample to C4: with the navigation toggle missing, init early
returns but the console message list is empty — no warning accompanies the
early return (and the DOMContentLoaded listener at lines 506-512 installs
no try/catch, so no failure is ever logged there either). -/
theorem mobileNavInit_missing_toggle_no_warning :
    (mobileNavInit false true).1 = false ∧
    (mobileNavInit false true).2 = [] ∧
    domReadyConsoleMessages false true true = [] := by
  decide

/-- C4 (amended): a missing required DOM element is handled by an early
return that emits no console warning, and the DOMContentLoaded
initialization invokes the feature constructors directly with no top-level
catch, so the whole initialization emits no console messages at all. -/
theorem init_early_return_silent (toggleFound menuFound headerFound : Bool) :
    ((mobileNavInit toggleFound menuFound).1 = (toggleFound && menuFound)) ∧
    (mobileNavInit toggleFound menuFound).2 = [] ∧
    ((headerInit headerFound).1 = headerFound) ∧
    domReadyConsoleMessages toggleFound menuFound headerFound = [] := by
  cases toggleFound <;> cases menuFound <;> cases headerFound <;> decide

/-- Counterexample to C5: HeaderScrollEffects.lastScrollTop is a numeric
value retained on the instance between handler invocations, and a single
updateHeader call at scroll position 50 changes it from 0 to 50 — so the
persistent in-memory state is not limited to the two boolean flags. -/
theorem lastScrollTop_retained_nonboolean :
    (updateHeader HeaderState.initial 50).lastScrollTop = 50 ∧
    HeaderState.initial.lastScrollTop = 0 ∧
    (updateHeader HeaderState.initial 50).lastScrollTop ≠
      HeaderState.initial.lastScrollTop := by
  decide

/-- C5 (amended): besides the two boolean flags, HeaderScrollEffects
retains the numeric field lastScrollTop between handler invocations, and
every updateHeader call overwrites it with the current scroll position
(further non-boolean values retained across calls, outside this state
model, are the debounce timeout handle, the throttle inThrottle flag and
the ScrollAnimations observer reference). -/
theorem updateHeader_retains_lastScrollTop (h : HeaderState) (s : Nat) :
    (updateHeader h s).lastScrollTop = s := by
  unfold updateHeader
  split_ifs <;> rfl

/-- One IntersectionObserver entry delivered to the callback (lines
374-383): the target element (identified by a number) and its
isIntersecting flag. -/
structure Entry where
  target : Nat
  isIntersecting : Bool
deriving Repr, DecidableEq

/-- The state touched by the ScrollAnimations observer callback: which
elements carry the visible class and which elements the observer still
observes. -/
structure ObsState where
  visible : List Nat
  observed : List Nat
deriving Repr, DecidableEq

/-- The body of entries.forEach in the observer callback (lines 375-382):
for an intersecting entry, add the visible class to the target
(classList.add is idempotent) and unobserve the target. -/
def processEntry (st : ObsState) (e : Entry) : ObsState :=
  if e.isIntersecting then
    { visible := if st.visible.contains e.target then st.visible
                 else st.visible ++ [e.target]
      observed := st.observed.filter (fun t => t ≠ e.target) }
  else st

/-- The IntersectionObserver callback (lines 374-383): one pass over the
delivered entries. -/
def observerCallback (st : ObsState) (entries : List Entry) : ObsState :=
  entries.foldl processEntry st

/-- The whole per-event state: navigation, header and observer. -/
structure FullState where
  nav : NavState
  header : HeaderState
  obs : ObsState
deriving Repr, DecidableEq

/-- The events whose handlers the script installs (clicks, keydown, resize,
scroll, intersection callback), with the DOM facts each handler reads
passed as parameters. -/
inductive Event where
  | toggleClick
  | linkClick
  | outsideClick (targetInMenu targetInToggle : Bool)
  | keydown (key : String)
  | resizeEvent (innerWidth : Nat)
  | scrollEvent (scrollTop : Nat)
  | intersection (entries : List Entry)
deriving Repr

/-- Dispatch one event to its handler, instrumented with the number of
iterations the handler performs: every handler body runs once, and only the
intersection callback loops — once per delivered entry. -/
def dispatch (st : FullState) (e : Event) : FullState × Nat :=
  match e with
  | .toggleClick => ({ st with nav := clickToggle st.nav }, 1)
  | .linkClick => ({ st with nav := linkClickHandler st.nav }, 1)
  | .outsideClick tm tt => ({ st with nav := outsideClickHandler st.nav tm tt }, 1)
  | .keydown k => ({ st with nav := keydownHandler st.nav k }, 1)
  | .resizeEvent w => ({ st with nav := resizeHandler st.nav w }, 1)
  | .scrollEvent s => ({ st with header := updateHeader st.header s }, 1)
  | .intersection entries =>
      ({ st with obs := observerCallback st.obs entries }, entries.length)

/-- The size of the finite element collection an event's handler iterates
over: only the intersection callback iterates, over its entry list. -/
def eventEntryCount (e : Event) : Nat :=
  match e with
  | .intersection entries => entries.length
  | _ => 0

lemma processEntry_observed_length (st : ObsState) (e : Entry) :
    (processEntry st e).observed.length ≤ st.observed.length := by
  unfold processEntry
  split
  · exact List.length_filter_le _ _
  · exact Nat.le_refl _

lemma observerCallback_observed_length (entries : List Entry) (st : ObsState) :
    (observerCallback st entries).observed.length ≤ st.observed.length := by
  induction entries generalizing st with
  | nil => exact Nat.le_refl _
  | cons e es ih =>
      have hstep : observerCallback st (e :: es) = observerCallback (processEntry st e) es := rfl
      rw [hstep]
      exact Nat.le_trans (ih (processEntry st e)) (processEntry_observed_length st e)

/-- C6: every installed handler terminates on each dispatch with bounded
work — at most one handler-body run plus one iteration per element of the
finite entry collection — and the intersection callback never grows the set
of observed elements, so the total intersection work over a page's life is
bounded by the initial element count. -/
theorem dispatch_bounded_work (st : FullState) (e : Event) :
    (dispatch st e).2 ≤ 1 + eventEntryCount e ∧
    (dispatch st e).1.obs.observed.length ≤ st.obs.observed.length := by
  cases e with
  | toggleClick => exact ⟨by simp [dispatch, eventEntryCount], Nat.le_refl _⟩
  | linkClick => exact ⟨by simp [dispatch, eventEntryCount], Nat.le_refl _⟩
  | outsideClick tm tt => exact ⟨by simp [dispatch, eventEntryCount], Nat.le_refl _⟩
  | keydown k => exact ⟨by simp [dispatch, eventEntryCount], Nat.le_refl _⟩
  | resizeEvent w => exact ⟨by simp [dispatch, eventEntryCount], Nat.le_refl _⟩
  | scrollEvent s => exact ⟨by simp [dispatch, eventEntryCount], Nat.le_refl _⟩
  | intersection entries =>
      exact ⟨by simp [dispatch, eventEntryCount],
             observerCallback_observed_length entries st.obs⟩

/-- The inputs createRippleEffect reads from the click event and the CTA
button rect (lines 449-454): e.clientX, e.clientY and
button.getBoundingClientRect(). CSS pixel lengths are embedded as
rationals. -/
structure RippleInput where
  clientX : ℚ
  clientY : ℚ
  rectLeft : ℚ
  rectTop : ℚ
  rectWidth : ℚ
  rectHeight : ℚ
deriving Repr, DecidableEq

/-- The geometry of the transient ripple span (lines 450-467): its size and
its left and top offsets. -/
structure Ripple where
  size : ℚ
  x : ℚ
  y : ℚ
deriving Repr, DecidableEq

/-- The document-head state the ripple effect touches: the ids of the style
elements present. -/
structure DocState where
  styleIds : List String
deriving Repr, DecidableEq

/-- InteractiveElements.createRippleEffect (lines 446-498): early return
under reduced motion; otherwise compute the ripple geometry from the click
coordinates and the button rect, and append the keyframes style element
only when no element with id ripple-keyframes is present (lines 470-482).
The span itself is appended to the button and removed after 600 ms; its
geometry is returned as the Ripple value. -/
def createRippleEffect (reducedMotion : Bool) (inp : RippleInput) (d : DocState) :
    DocState × Option Ripple :=
  if reducedMotion then (d, none)
  else
    let size := max inp.rectHeight inp.rectWidth
    let x := inp.clientX - inp.rectLeft - size / 2
    let y := inp.clientY - inp.rectTop - size / 2
    let styles := if "ripple-keyframes" ∈ d.styleIds then d.styleIds
                  else d.styleIds ++ ["ripple-keyframes"]
    ({ styleIds := styles }, some { size := size, x := x, y := y })

/-- Modelled from the spec: the HTML of the page is not under src/, and the
spec limits the script to inserting the keyframes style itself, so the
initial document head holds no style element with id ripple-keyframes. -/
def initialDoc : DocState :=
  { styleIds := [] }

/-- A sequence of CTA button clicks: each call carries its reduced-motion
flag and its click/rect input. -/
def runRipples (calls : List (Bool × RippleInput)) (d : DocState) : DocState :=
  calls.foldl (fun acc c => (createRippleEffect c.1 c.2 acc).1) d

/-- C7: on a click at client coordinates (cx, cy) on a button with rect
(left, top, w, h), when reduced motion is not preferred, the ripple is a
circle of diameter max(h, w) placed at offsets cx - left - size / 2 and
cy - top - size / 2. -/
theorem createRippleEffect_circle_geometry (inp : RippleInput) (d : DocState) :
    (createRippleEffect false inp d).2 =
      some { size := max inp.rectHeight inp.rectWidth
             x := inp.clientX - inp.rectLeft - max inp.rectHeight inp.rectWidth / 2
             y := inp.clientY - inp.rectTop - max inp.rectHeight inp.rectWidth / 2 } :=
  rfl

lemma ripple_step_styleIds_of_mem (rm : Bool) (inp : RippleInput) (d : DocState)
    (h : "ripple-keyframes" ∈ d.styleIds) :
    (createRippleEffect rm inp d).1.styleIds = d.styleIds := by
  unfold createRippleEffect
  split
  · rfl
  · simp [h]

lemma ripple_step_count_le (rm : Bool) (inp : RippleInput) (d : DocState)
    (h : d.styleIds.count "ripple-keyframes" ≤ 1) :
    (createRippleEffect rm inp d).1.styleIds.count "ripple-keyframes" ≤ 1 := by
  unfold createRippleEffect
  split
  · exact h
  · by_cases hm : "ripple-keyframes" ∈ d.styleIds
    · simpa [hm] using h
    · have h0 : d.styleIds.count "ripple-keyframes" = 0 := List.count_eq_zero.mpr hm
      simp [hm, List.count_append, h0]

lemma runRipples_count_le (calls : List (Bool × RippleInput)) (d : DocState)
    (h : d.styleIds.count "ripple-keyframes" ≤ 1) :
    (runRipples calls d).styleIds.count "ripple-keyframes" ≤ 1 := by
  induction calls generalizing d with
  | nil => exact h
  | cons c cs ih =>
      have hstep : runRipples (c :: cs) d = runRipples cs (createRippleEffect c.1 c.2 d).1 := rfl
      rw [hstep]
      exact ih _ (ripple_step_count_le c.1 c.2 d h)

/-- C9: after any sequence of createRippleEffect runs from the initial
document, at most one style element with id ripple-keyframes exists, and a
run on a document already holding that id leaves the style elements
unchanged. -/
theorem ripple_keyframes_unique :
    (∀ calls : List (Bool × RippleInput),
       (runRipples calls initialDoc).styleIds.count "ripple-keyframes" ≤ 1) ∧
    (∀ (rm : Bool) (inp : RippleInput) (d : DocState),
       "ripple-keyframes" ∈ d.styleIds →
       (createRippleEffect rm inp d).1.styleIds = d.styleIds) :=
  ⟨fun calls => runRipples_count_le calls initialDoc (by decide),
   ripple_step_styleIds_of_mem⟩

/-- Witness for C9: two concrete clicks insert the keyframes style once,
and a further run on a document already holding it changes nothing. -/
theorem ripple_keyframes_unique_witness :
    (runRipples
       [(false, { clientX := 10, clientY := 20, rectLeft := 0, rectTop := 0,
                  rectWidth := 40, rectHeight := 30 }),
        (false, { clientX := 10, clientY := 20, rectLeft := 0, rectTop := 0,
                  rectWidth := 40, rectHeight := 30 })]
       initialDoc).styleIds.count "ripple-keyframes" ≤ 1 ∧
    (createRippleEffect false
       { clientX := 10, clientY := 20, rectLeft := 0, rectTop := 0,
         rectWidth := 40, rectHeight := 30 }
       { styleIds := ["ripple-keyframes"] }).1.styleIds = ["ripple-keyframes"] :=
  ⟨ripple_keyframes_unique.1 _,
   ripple_keyframes_unique.2 false _ { styleIds := ["ripple-keyframes"] } (by decide)⟩

/-- The consistency relation of C8 on the menu state: the active class, the
aria-expanded attribute and the body overflow style all agree with the
isOpen flag. -/
def NavState.consistent (s : NavState) : Prop :=
  s.menuActive = s.isOpen ∧
  s.ariaExpanded = (if s.isOpen then "true" else "false") ∧
  s.bodyOverflow = (if s.isOpen then "hidden" else "")

/-- C8: from any consistent state, toggleMenu twice restores the isOpen
flag, the active class, aria-expanded and the body overflow to their
original values, and openMenu followed by closeMenu leaves aria-expanded
false, aria-label at the open prompt, and body overflow empty. -/
theorem toggle_involution_open_close_restores (s : NavState) (h : s.consistent) :
    (toggleMenu (toggleMenu s)).isOpen = s.isOpen ∧
    (toggleMenu (toggleMenu s)).menuActive = s.menuActive ∧
    (toggleMenu (toggleMenu s)).ariaExpanded = s.ariaExpanded ∧
    (toggleMenu (toggleMenu s)).bodyOverflow = s.bodyOverflow ∧
    (closeMenu (openMenu s)).ariaExpanded = "false" ∧
    (closeMenu (openMenu s)).ariaLabel = "Open navigation menu" ∧
    (closeMenu (openMenu s)).bodyOverflow = "" := by
  obtain ⟨h1, h2, h3⟩ := h
  cases ho : s.isOpen <;> simp_all [toggleMenu, openMenu, closeMenu]

/-- Witness for C8 at the initial (consistent, closed) state. -/
theorem toggle_involution_open_close_restores_witness :
    (toggleMenu (toggleMenu NavState.initial)).isOpen = NavState.initial.isOpen ∧
    (closeMenu (openMenu NavState.initial)).bodyOverflow = "" :=
  ⟨(toggle_involution_open_close_restores NavState.initial ⟨rfl, rfl, rfl⟩).1,
   (toggle_involution_open_close_restores NavState.initial ⟨rfl, rfl, rfl⟩).2.2.2.2.2.2⟩

/-- C10: while the menu is closed, the outside-click handler, the Escape
keydown handler and the debounced resize handler leave the menu state
unchanged — closeMenu runs only from states with isOpen true. -/
theorem closed_menu_handlers_frame (s : NavState) (h : s.isOpen = false)
    (targetInMenu targetInToggle : Bool) (key : String) (innerWidth : Nat) :
    outsideClickHandler s targetInMenu targetInToggle = s ∧
    keydownHandler s key = s ∧
    resizeHandler s innerWidth = s := by
  refine ⟨?_, ?_, ?_⟩ <;>
    simp [outsideClickHandler, keydownHandler, resizeHandler, h]

/-- Witness for C10: the closed initial state is untouched by an outside
click, an Escape press and a desktop-width resize. -/
theorem closed_menu_handlers_frame_witness :
    outsideClickHandler NavState.initial false false = NavState.initial ∧
    keydownHandler NavState.initial "Escape" = NavState.initial ∧
    resizeHandler NavState.initial 1024 = NavState.initial :=
  closed_menu_handlers_frame NavState.initial rfl false false "Escape" 1024

end Navcat
